import Mathlib

/-!
Shallow embedding of the website_response_checker monitoring core
(`src/regex_checker.py`, `src/monitor_service.py`, `src/database.py`,
`src/main.py`) together with theorems settling the specification claims.

Python machine integers and epoch timestamps are modelled as `Int`,
response times (Python floats that are only carried through, never
computed with) as `ℚ`, Python `None`-able strings as `Option String`.
-/

/-- A probe result tuple, mirroring the 6-tuple appended to the global
`results` list in `monitor_service.monitor_url`:
`(url, response_time, status_code, matched_content, epoch_time, detail)`. -/
structure ProbeResult where
  url : String
  response_time : ℚ
  status_code : Int
  matched_content : Option String
  observed_at : Int
  detail : String
deriving Repr, DecidableEq

/-- Python's `re.search(pattern, content)` restricted to literal
(metacharacter-free) patterns, which is all the claims exercise: it finds
the leftmost occurrence of `pattern` in `content` and `match.group(0)`,
the full matched substring, is then the pattern itself; it returns `None`
when the pattern does not occur. -/
def reSearch (pattern content : String) : Option String :=
  if pattern.toList <:+: content.toList then some pattern else none

/-- `regex_checker.check_content_and_extract(content, pattern)`:
`pattern is None` returns `(True, None)`; otherwise `re.search`, and on a
match returns `(True, match.group(0))`, else `(False, None)`. -/
def check_content_and_extract (content : String) (pattern : Option String) :
    Bool × Option String :=
  match pattern with
  | none => (true, none)
  | some p =>
    match reSearch p content with
    | some m => (true, some m)
    | none => (false, none)

/-- Outcome of `requests.get(url, timeout=10)` as dispatched by the
`try/except` ladder of `monitor_url` (lines 44-78): a completed response
carrying `status_code`, `elapsed.total_seconds()` and the body `text`, or
one of the exception classes, in the order the `except` clauses test them
(`Timeout`, `TooManyRedirects`, any other `RequestException`, any other
`Exception`). -/
inductive GetOutcome where
  | success (status : Int) (elapsed : ℚ) (body : String)
  | timeout
  | tooManyRedirects
  | requestException
  | otherException
deriving Repr, DecidableEq

/-- Python truthiness of an optional string, as used in
`if not pattern_found and regex_pattern:` — `None` and `''` are falsy. -/
def pyTruthy : Option String → Bool
  | none => false
  | some s => !s.isEmpty

/-- Everything observable about one `monitor_url` call: the global
`results` buffer after the call, the batches handed to
`stream_insert_result`, the result this call appended (if execution got
that far), whether the "Pattern not found" warning was logged, whether
`check_content_and_extract` was invoked, and the exception propagated to
the caller, if any. -/
structure MonitorOutcome where
  results : List ProbeResult
  flushAttempts : List (List ProbeResult)
  appended : Option ProbeResult
  warnedPatternNotFound : Bool
  matcherInvoked : Bool
  raised : Option String
deriving Repr, DecidableEq

/-- Lines 80-83 of `monitor_url`: once `len(results) >= batch_size`, the
whole buffer is handed to `dbman.stream_insert_result` and then cleared
by `results.clear()`; `flush` is the storage sink's response, and a
storage error propagates before the clear runs. Returns the buffer after
the call, the batches handed to the writer, and the exception raised. -/
def maybe_flush (buf : List ProbeResult) (batch_size : Nat)
    (flush : Except String Unit) :
    List ProbeResult × List (List ProbeResult) × Option String :=
  if batch_size ≤ buf.length then
    match flush with
    | .ok _ => ([], [buf], none)
    | .error e => (buf, [buf], some e)
  else (buf, [], none)

/-- The `try/except` ladder of `monitor_url` (lines 44-78) as one closed
classification: for each GET outcome it builds the row appended to
`results`, the "Pattern not found" warning flag
(`not pattern_found and regex_pattern`, inside the 200 branch), and
whether `check_content_and_extract` was invoked (exactly in the
`status_code == HTTPStatus.OK` branch; a non-200 response keeps the
initializer `(False, None)`). -/
def classifyProbe (url : String) (regex_pattern : Option String)
    (epoch_time : Int) : GetOutcome → ProbeResult × Bool × Bool
  | .success status elapsed body =>
    let pm : Bool × Option String :=
      if status = 200 then check_content_and_extract body regex_pattern
      else (false, none)
    let warned : Bool :=
      decide (status = 200) && !pm.1 && pyTruthy regex_pattern
    (⟨url, elapsed, status, pm.2, epoch_time, ""⟩, warned,
      decide (status = 200))
  | .timeout =>
    (⟨url, 0, 408, none, epoch_time, "Request timed out"⟩, false, false)
  | .tooManyRedirects =>
    (⟨url, 0, 300, none, epoch_time, "Too many redirects"⟩, false, false)
  | .requestException =>
    (⟨url, 0, 503, none, epoch_time,
      "Request failed, service unavailable"⟩, false, false)
  | .otherException =>
    (⟨url, 0, 0, none, epoch_time, "Unexpected error"⟩, false, false)

/-- `monitor_service.monitor_url(url, regex_pattern, batch_size)` acting
on the global `results` buffer `buf`. External effects are inputs:
`connect` is the outcome of the `DatabaseManager()` construction
(`psycopg2.connect`, line 40, before the `try`), `epoch_time` the value
of `int(time.time())`, `get` the outcome of the GET, and `flush` the
storage sink's response if a flush is triggered. -/
def monitor_url (url : String) (regex_pattern : Option String)
    (batch_size : Nat) (connect : Except String Unit) (epoch_time : Int)
    (get : GetOutcome) (flush : Except String Unit)
    (buf : List ProbeResult) : MonitorOutcome :=
  match connect with
  | .error e => ⟨buf, [], none, false, false, some e⟩
  | .ok _ =>
    let tried := classifyProbe url regex_pattern epoch_time get
    let fl := maybe_flush (buf ++ [tried.1]) batch_size flush
    ⟨fl.1, fl.2.1, some tried.1, tried.2.1, tried.2.2, fl.2.2⟩

/-- The slicing loop `for i in range(0, len(l), n): l[i:i+n]`, used both
by `chunk_websites` (main.py lines 30-31) and by the chunk loop of
`stream_insert_result` (database.py lines 145-146): successive slices of
length `n`, the last possibly shorter.  Both call sites guarantee
`n ≥ 1` (`max(1, ...)`; default 1000); for `n = 0` Python's `range`
raises, and we return `[]` there. -/
def pySlices {α : Type} : List α → Nat → List (List α)
  | [], _ => []
  | a :: l, n =>
    if h : n = 0 then []
    else ((a :: l).take n) :: pySlices ((a :: l).drop n) n
termination_by l _ => l.length
decreasing_by
  simp only [List.length_drop, List.length_cons]
  omega

/-- A row as built for the `COPY t_monitor` bulk load in
`stream_insert_result`:
`(web_id, status_code, response_time, matched_content_escaped, check_ts,
detail_log)`. -/
structure DbRow where
  web_id : Int
  status_code : Int
  response_time : ℚ
  matched_content : String
  check_ts : Int
  detail_log : String
deriving Repr, DecidableEq

/-- Python's `str.replace('"', '""')` at the character level: every `"`
in the list is doubled, everything else kept. -/
def doubleQuotesAux : List Char → List Char
  | [] => []
  | c :: t =>
    if c = '"' then '"' :: '"' :: doubleQuotesAux t
    else c :: doubleQuotesAux t

/-- Lines 136-140 of database.py: `matched_content` is replaced by `''`
when `None` and then every embedded `"` is doubled — this escaping is
applied to `matched_content` only. -/
def escapeMatchedContent (mc : Option String) : String :=
  ⟨doubleQuotesAux (mc.getD "").toList⟩

/-- Lines 131-142: one raw result tuple becomes a db row — the site key
is resolved with `upsert_website` (external, committed per call) and the
matched content is escaped. -/
def toDbRow (upsert : String → Int) (r : ProbeResult) : DbRow :=
  ⟨upsert r.url, r.status_code, r.response_time,
    escapeMatchedContent r.matched_content, r.observed_at, r.detail⟩

/-- Line 154-155: one CSV field — a Python string value is wrapped in
double quotes exactly as it is (no further escaping happens here); a
non-string value is rendered with `str`. -/
def csvStringField (v : String) : String := "\"" ++ v ++ "\""

/-- Lines 152-156: the CSV line of one row, fields joined with `,`; the
string-typed fields (`matched_content_escaped` and `detail_log`) are
quote-wrapped, the numeric fields are not.  (Numeric rendering is
`toString`; the claims only concern the string fields.) -/
def csvLine (row : DbRow) : String :=
  String.intercalate ","
    [toString row.web_id, toString row.status_code,
      toString row.response_time, csvStringField row.matched_content,
      toString row.check_ts, csvStringField row.detail_log]

/-- Outcome of one `stream_insert_result` call: the rows made durable by
the final `conn.commit()`, the chunk indices for which `copy_expert`
ran, whether the `except` handler logged, and the exception re-raised to
the caller. -/
structure FlushResult where
  committed : List DbRow
  copiesAttempted : List Nat
  loggedError : Bool
  raised : Option String
deriving Repr, DecidableEq

/-- The `copy_expert` loop (lines 145-160): chunks are sent in order
until the storage sink rejects one; `copyOutcome i` is the sink's
response to chunk `i`.  Returns the attempted chunk indices and the
first error. -/
def runCopies (copyOutcome : Nat → Except String Unit) :
    List (List DbRow) → Nat → List Nat × Option String
  | [], _ => ([], none)
  | _ :: rest, i =>
    match copyOutcome i with
    | .ok _ =>
      let r := runCopies copyOutcome rest (i + 1)
      (i :: r.1, r.2)
    | .error e => ([i], some e)

/-- `database.stream_insert_result(results, chunk_size)` with the
storage sink abstracted: `upsert` is the `upsert_website` site-key
resolution and `copyOutcome` the sink's response to each `copy_expert`
chunk.  The single `conn.commit()` (line 161) runs only after every
chunk has been copied, so the batch rows are durable only when no chunk
failed; any failure is logged by the `except` handler (line 163) and
re-raised (line 164). -/
def stream_insert_result (results : List ProbeResult)
    (upsert : String → Int) (chunk_size : Nat)
    (copyOutcome : Nat → Except String Unit) : FlushResult :=
  let modified := results.map (toDbRow upsert)
  let chunks := pySlices modified chunk_size
  let run := runCopies copyOutcome chunks 0
  match run.2 with
  | some e => ⟨[], run.1, true, some e⟩
  | none => ⟨modified, run.1, false, none⟩

/-- A validated site descriptor (`validator.Website`): absolute url,
interval in `[5, 300]` seconds, optional compiling pattern.  Validation
is an external collaborator; the Dispatcher claims only use the list
structure. -/
structure Website where
  url : String
  interval : Int
  regex_pattern : Option String
deriving Repr, DecidableEq

/-- `main.chunk_websites(website_list, chunk_size)` (lines 30-31). -/
def chunk_websites (website_list : List Website) (chunk_size : Nat) :
    List (List Website) :=
  pySlices website_list chunk_size

/-- `__main__` line 66: `websites_per_chunk = max(1, len(websites) //
num_cores)` — floor division. -/
def websites_per_chunk (websites : List Website) (num_cores : Nat) : Nat :=
  max 1 (websites.length / num_cores)

/-- `__main__` lines 68-69: the site list is chunked with
`websites_per_chunk` and one thread is started per chunk
(`monitor_websites_chunk`), which starts one
`monitor_website_continuous` loop per site of its chunk; the spawn
structure is the list of chunks. -/
def mainDispatch (websites : List Website) (num_cores : Nat) :
    List (List Website) :=
  chunk_websites websites (websites_per_chunk websites num_cores)

/-- The state shared by all site threads: the global `results` list
(monitor_service.py line 19) and the batches handed so far to
`stream_insert_result`. -/
structure SysState where
  buffer : List ProbeResult
  flushes : List (List ProbeResult)
deriving Repr, DecidableEq

/-- The remaining buffering-phase code of one site thread inside
`monitor_url`, at the atomicity CPython's interpreter lock grants single
list operations.  `appendThen r bs` is a thread about to run
`results.append(r)` (line 55 or 63-78); `flushCheck bs` is a thread
about to evaluate `len(results) >= batch_size` and, if it holds, call
`dbman.stream_insert_result(results)` (lines 81-82, which reads the
current buffer and hands it to the writer); `midFlush` is a thread that
has handed the buffer over and is about to run `results.clear()` (line
83).  No lock is held across these steps in the source. -/
inductive ThreadCode where
  | appendThen (r : ProbeResult) (bs : Nat)
  | flushCheck (bs : Nat)
  | midFlush
  | done
deriving Repr, DecidableEq

/-- One atomic step of a single thread against the shared state; `none`
when the thread has finished. -/
def threadStep : ThreadCode → SysState → Option (ThreadCode × SysState)
  | .appendThen r bs, s =>
    some (.flushCheck bs, ⟨s.buffer ++ [r], s.flushes⟩)
  | .flushCheck bs, s =>
    if bs ≤ s.buffer.length then
      some (.midFlush, ⟨s.buffer, s.flushes ++ [s.buffer]⟩)
    else some (.done, s)
  | .midFlush, s => some (.done, ⟨[], s.flushes⟩)
  | .done, _ => none

/-- Run one interleaving: `sched` names, step by step, the thread whose
next atomic operation executes.  Each thread's own program order is
preserved; any `sched` is a possible scheduling of the concurrent site
loops. -/
def runSchedule : List Nat → List ThreadCode × SysState →
    List ThreadCode × SysState
  | [], c => c
  | i :: rest, (ts, s) =>
    match ts.get? i with
    | some tc =>
      match threadStep tc s with
      | some (tc2, s2) => runSchedule rest (ts.set i tc2, s2)
      | none => runSchedule rest (ts, s)
    | none => runSchedule rest (ts, s)

/-- C3: the Content Matcher is a pure function (it is a Lean function of
its two arguments); with no pattern it returns `(true, none)`; when the
pattern occurs in the content it returns `(true, s)` with `s` the full
substring of the first match (for a literal pattern, the pattern itself);
when the pattern does not occur it returns `(false, none)`. -/
theorem check_content_and_extract_spec (content p : String) :
    check_content_and_extract content none = (true, none) ∧
    (p.toList <:+: content.toList →
      check_content_and_extract content (some p) = (true, some p)) ∧
    (¬ p.toList <:+: content.toList →
      check_content_and_extract content (some p) = (false, none)) := by
  refine ⟨rfl, ?_, ?_⟩ <;> intro h <;>
    simp only [check_content_and_extract, reSearch] <;>
    [rw [if_pos h]; rw [if_neg h]]

/-- Witness for C3 at concrete inputs: pattern "Data" occurs in
"Data Engineer", pattern "Rust" does not. -/
theorem check_content_and_extract_spec_witness :
    check_content_and_extract "Data Engineer" none = (true, none) ∧
    check_content_and_extract "Data Engineer" (some "Data") =
      (true, some "Data") ∧
    check_content_and_extract "Data Engineer" (some "Rust") = (false, none) := by
  have h := check_content_and_extract_spec "Data Engineer" "Data"
  have h2 := check_content_and_extract_spec "Data Engineer" "Rust"
  exact ⟨h.1, h.2.1 (by decide), h2.2.2 (by decide)⟩

/-- C1: every transport failure of the GET is classified into exactly one
of the four terminal outcomes — timeout gives `(408, "Request timed
out")`, redirect-limit gives `(300, "Too many redirects")`, any other
request failure gives `(503, "Request failed, service unavailable")`, any
other error gives `(0, "Unexpected error")` — and on each failure path
the appended result records `response_time = 0` and
`matched_content = none`. -/
theorem monitor_url_failure_classification (url : String)
    (p : Option String) (bs : Nat) (t : Int) (fl : Except String Unit)
    (buf : List ProbeResult) :
    (monitor_url url p bs (.ok ()) t .timeout fl buf).appended =
      some ⟨url, 0, 408, none, t, "Request timed out"⟩ ∧
    (monitor_url url p bs (.ok ()) t .tooManyRedirects fl buf).appended =
      some ⟨url, 0, 300, none, t, "Too many redirects"⟩ ∧
    (monitor_url url p bs (.ok ()) t .requestException fl buf).appended =
      some ⟨url, 0, 503, none, t, "Request failed, service unavailable"⟩ ∧
    (monitor_url url p bs (.ok ()) t .otherException fl buf).appended =
      some ⟨url, 0, 0, none, t, "Unexpected error"⟩ :=
  ⟨rfl, rfl, rfl, rfl⟩

/-- Unfolding `monitor_url` when the database connection succeeds. -/
lemma monitor_url_eq (url : String) (p : Option String) (bs : Nat)
    (t : Int) (get : GetOutcome) (fl : Except String Unit)
    (buf : List ProbeResult) :
    monitor_url url p bs (.ok ()) t get fl buf =
      ⟨(maybe_flush (buf ++ [(classifyProbe url p t get).1]) bs fl).1,
        (maybe_flush (buf ++ [(classifyProbe url p t get).1]) bs fl).2.1,
        some (classifyProbe url p t get).1,
        (classifyProbe url p t get).2.1,
        (classifyProbe url p t get).2.2,
        (maybe_flush (buf ++ [(classifyProbe url p t get).1]) bs fl).2.2⟩ :=
  rfl

/-- `maybe_flush` does nothing while the buffer is below the threshold. -/
lemma maybe_flush_below (buf : List ProbeResult) (bs : Nat)
    (flush : Except String Unit) (h : buf.length < bs) :
    maybe_flush buf bs flush = (buf, [], none) := by
  unfold maybe_flush
  rw [if_neg (by omega)]

/-- `maybe_flush` drains the whole buffer once the threshold is reached
and the storage sink accepts the batch. -/
lemma maybe_flush_reached (buf : List ProbeResult) (bs : Nat)
    (h : bs ≤ buf.length) :
    maybe_flush buf bs (.ok ()) = ([], [buf], none) := by
  unfold maybe_flush
  rw [if_pos h]

/-- A successful flush never raises, whatever the buffer length. -/
lemma maybe_flush_ok_raised (buf : List ProbeResult) (bs : Nat) :
    (maybe_flush buf bs (.ok ())).2.2 = none := by
  unfold maybe_flush
  split <;> rfl

/-- C2 counterexample: with buffer threshold 1 and a storage sink that
fails during the flush this call triggers, `monitor_url` propagates the
storage exception to its caller even though the GET itself succeeded, so
"never throws or propagates an exception to its caller" is false as
stated. -/
theorem monitor_url_can_raise :
    (monitor_url "https://example.com" none 1 (.ok ()) 100
      (.success 200 (1/2) "ok") (.error "db down") []).raised =
      some "db down" := rfl

/-- C2 amended: `monitor_url` never propagates any failure of the GET
itself — every transport failure or unexpected error of the probe is
captured into the result it appends and nothing is raised — provided its
storage collaborators succeed (the `DatabaseManager()` connection and any
flush the call triggers); only a storage-sink failure can propagate. -/
theorem monitor_url_no_raise (url : String) (p : Option String) (bs : Nat)
    (t : Int) (get : GetOutcome) (buf : List ProbeResult) :
    (monitor_url url p bs (.ok ()) t get (.ok ()) buf).raised = none ∧
    ∃ r, (monitor_url url p bs (.ok ()) t get (.ok ()) buf).appended =
      some r :=
  ⟨maybe_flush_ok_raised _ _, _, rfl⟩

/-- On a 200 response the classification runs the Content Matcher and
builds the row from its output, with empty detail. -/
lemma classifyProbe_200 (url body : String) (p : Option String) (t : Int)
    (e : ℚ) :
    classifyProbe url p t (.success 200 e body) =
      (⟨url, e, 200, (check_content_and_extract body p).2, t, ""⟩,
        !(check_content_and_extract body p).1 && pyTruthy p, true) :=
  rfl

/-- On a non-200 response the classification skips the Content Matcher
and keeps the `(False, None)` initializer. -/
lemma classifyProbe_non200 (url body : String) (p : Option String)
    (t : Int) (e : ℚ) (status : Int) (h : status ≠ 200) :
    classifyProbe url p t (.success status e body) =
      (⟨url, e, status, none, t, ""⟩, false, false) := by
  simp only [classifyProbe]
  rw [if_neg h]
  simp [h]

/-- A pattern that `re.search` fails to find is a nonempty string. -/
lemma reSearch_none_ne_empty (p body : String) (h : reSearch p body = none) :
    p.isEmpty = false := by
  have hp : ¬ (p.toList <:+: body.toList) := by
    intro hcon
    rw [reSearch, if_pos hcon] at h
    exact Option.noConfusion h
  rw [Bool.eq_false_iff]
  intro he
  apply hp
  have : p = "" := (String.isEmpty_iff p).mp he
  rw [this]
  exact List.nil_infix

/-- C8: for a probe whose GET completes with HTTP 200 — with no pattern
supplied the appended result has `matched_content = none`, empty detail,
and no "pattern not found" warning is logged; a supplied pattern whose
first match in the body is `m` yields the result
`(url, elapsed, 200, some m, t, "")`; and a supplied pattern with no
match is not a failure: the result still carries status 200 with
`matched_content` absent and empty detail, and only the warning is
logged.  The final conjunct is the spec scenario: body "Data Engineer",
pattern "Data", elapsed 0.5 s. -/
theorem monitor_url_http200 (url body p : String) (bs : Nat) (t : Int)
    (fl : Except String Unit) (buf : List ProbeResult) (e : ℚ) :
    ((monitor_url url none bs (.ok ()) t (.success 200 e body) fl
        buf).appended = some ⟨url, e, 200, none, t, ""⟩ ∧
      (monitor_url url none bs (.ok ()) t (.success 200 e body) fl
        buf).warnedPatternNotFound = false) ∧
    (∀ m, reSearch p body = some m →
      (monitor_url url (some p) bs (.ok ()) t (.success 200 e body) fl
        buf).appended = some ⟨url, e, 200, some m, t, ""⟩) ∧
    (reSearch p body = none →
      (monitor_url url (some p) bs (.ok ()) t (.success 200 e body) fl
        buf).appended = some ⟨url, e, 200, none, t, ""⟩ ∧
      (monitor_url url (some p) bs (.ok ()) t (.success 200 e body) fl
        buf).warnedPatternNotFound = true) ∧
    (monitor_url url (some "Data") bs (.ok ()) t
        (.success 200 (1/2) "Data Engineer") fl buf).appended =
      some ⟨url, 1/2, 200, some "Data", t, ""⟩ := by
  refine ⟨⟨rfl, rfl⟩, ?_, ?_, ?_⟩
  · intro m h
    simp [monitor_url_eq, classifyProbe_200, check_content_and_extract, h]
  · intro h
    have hne := reSearch_none_ne_empty p body h
    constructor
    · simp [monitor_url_eq, classifyProbe_200, check_content_and_extract, h]
    · simp [monitor_url_eq, classifyProbe_200, check_content_and_extract,
        h, pyTruthy, hne]
  · have hd : reSearch "Data" "Data Engineer" = some "Data" := by decide
    simp [monitor_url_eq, classifyProbe_200, check_content_and_extract, hd]

/-- Witness for C8: the spec scenario at fully concrete inputs — the
pattern "Data" matched in body "Data Engineer" with elapsed 0.5 s gives
matched content "Data". -/
theorem monitor_url_http200_witness :
    (monitor_url "https://example.com" (some "Data") 1000 (.ok ()) 42
        (.success 200 (1/2) "Data Engineer") (.ok ()) []).appended =
      some ⟨"https://example.com", 1/2, 200, some "Data", 42, ""⟩ :=
  (monitor_url_http200 "https://example.com" "Data Engineer" "Data" 1000
    42 (.ok ()) [] (1/2)).2.1 "Data" (by decide)

/-- C10: a probe whose GET completes with a status other than 200 never
invokes the Content Matcher and appends
`(url, elapsed, status, none, t, "")` — the real status code, no matched
content, empty detail — and logs no "pattern not found" warning; it never
goes through the transport-failure table (whose rows all carry zero
response time and a nonempty or sentinel classification, whereas here the
actual elapsed time and actual status are recorded). -/
theorem monitor_url_non200 (url body : String) (p : Option String)
    (bs : Nat) (t : Int) (fl : Except String Unit)
    (buf : List ProbeResult) (e : ℚ) (status : Int) (h : status ≠ 200) :
    (monitor_url url p bs (.ok ()) t (.success status e body) fl
        buf).appended = some ⟨url, e, status, none, t, ""⟩ ∧
    (monitor_url url p bs (.ok ()) t (.success status e body) fl
        buf).matcherInvoked = false ∧
    (monitor_url url p bs (.ok ()) t (.success status e body) fl
        buf).warnedPatternNotFound = false := by
  refine ⟨?_, ?_, ?_⟩ <;>
    simp [monitor_url_eq, classifyProbe_non200 url body p t e status h]

/-- Witness for C10: a 404 response with a supplied pattern records the
real status 404 with no matched content and empty detail. -/
theorem monitor_url_non200_witness :
    (monitor_url "https://example.com" (some "Data") 1000 (.ok ()) 42
        (.success 404 (1/4) "not found") (.ok ()) []).appended =
      some ⟨"https://example.com", 1/4, 404, none, 42, ""⟩ :=
  (monitor_url_non200 "https://example.com" "not found" (some "Data")
    1000 42 (.ok ()) [] (1/4) 404 (by decide)).1

/-- C4: appending a result that brings the buffer length to the
threshold hands the entire buffer to the Batch Writer as one bulk write
and clears the buffer; while the length stays below the threshold no
flush happens; and with threshold 2, three probes (one append each)
trigger exactly one flush containing exactly the first two results and
leave exactly one result in the buffer. -/
theorem monitor_url_batching (url : String) (p : Option String) (bs : Nat)
    (t : Int) (get : GetOutcome) (buf : List ProbeResult) :
    (buf.length + 1 < bs →
      (monitor_url url p bs (.ok ()) t get (.ok ()) buf).flushAttempts =
        [] ∧
      ∃ r, (monitor_url url p bs (.ok ()) t get (.ok ()) buf).appended =
          some r ∧
        (monitor_url url p bs (.ok ()) t get (.ok ()) buf).results =
          buf ++ [r]) ∧
    (bs ≤ buf.length + 1 →
      ∃ r, (monitor_url url p bs (.ok ()) t get (.ok ()) buf).appended =
          some r ∧
        (monitor_url url p bs (.ok ()) t get (.ok ()) buf).flushAttempts =
          [buf ++ [r]] ∧
        (monitor_url url p bs (.ok ()) t get (.ok ()) buf).results = []) ∧
    ((monitor_url "a" none 2 (.ok ()) 7 (.success 200 1 "ok") (.ok ())
        []).results = [⟨"a", 1, 200, none, 7, ""⟩] ∧
      (monitor_url "a" none 2 (.ok ()) 7 (.success 200 1 "ok") (.ok ())
        []).flushAttempts = [] ∧
      (monitor_url "b" none 2 (.ok ()) 7 (.success 200 1 "ok") (.ok ())
        [⟨"a", 1, 200, none, 7, ""⟩]).flushAttempts =
        [[⟨"a", 1, 200, none, 7, ""⟩, ⟨"b", 1, 200, none, 7, ""⟩]] ∧
      (monitor_url "b" none 2 (.ok ()) 7 (.success 200 1 "ok") (.ok ())
        [⟨"a", 1, 200, none, 7, ""⟩]).results = [] ∧
      (monitor_url "c" none 2 (.ok ()) 7 (.success 200 1 "ok") (.ok ())
        []).flushAttempts = [] ∧
      (monitor_url "c" none 2 (.ok ()) 7 (.success 200 1 "ok") (.ok ())
        []).results = [⟨"c", 1, 200, none, 7, ""⟩]) := by
  have hlen : (buf ++ [(classifyProbe url p t get).1]).length =
      buf.length + 1 := by simp
  refine ⟨?_, ?_, ?_⟩
  · intro h
    have hb : (buf ++ [(classifyProbe url p t get).1]).length < bs := by
      omega
    refine ⟨?_, (classifyProbe url p t get).1, rfl, ?_⟩
    · show (maybe_flush (buf ++ [(classifyProbe url p t get).1]) bs
        (.ok ())).2.1 = []
      rw [maybe_flush_below _ _ _ hb]
    · show (maybe_flush (buf ++ [(classifyProbe url p t get).1]) bs
        (.ok ())).1 = buf ++ [(classifyProbe url p t get).1]
      rw [maybe_flush_below _ _ _ hb]
  · intro h
    have hb : bs ≤ (buf ++ [(classifyProbe url p t get).1]).length := by
      omega
    refine ⟨(classifyProbe url p t get).1, rfl, ?_, ?_⟩
    · show (maybe_flush (buf ++ [(classifyProbe url p t get).1]) bs
        (.ok ())).2.1 = [buf ++ [(classifyProbe url p t get).1]]
      rw [maybe_flush_reached _ _ hb]
    · show (maybe_flush (buf ++ [(classifyProbe url p t get).1]) bs
        (.ok ())).1 = []
      rw [maybe_flush_reached _ _ hb]
  · refine ⟨rfl, rfl, rfl, rfl, rfl, rfl⟩

/-- Witness for C4: with threshold 3 and an empty buffer, one probe does
not flush; with threshold 1 it flushes its own single-result batch. -/
theorem monitor_url_batching_witness :
    (monitor_url "a" none 3 (.ok ()) 7 .timeout (.ok ()) []).flushAttempts
      = [] ∧
    (monitor_url "a" none 1 (.ok ()) 7 .timeout (.ok ()) []).results =
      [] := by
  constructor
  · exact ((monitor_url_batching "a" none 3 7 .timeout []).1
      (by decide)).1
  · obtain ⟨r, -, -, hres⟩ :=
      (monitor_url_batching "a" none 1 7 .timeout []).2.1 (by decide)
    exact hres

/-- Every chunk index attempted by the copy loop is at least the
starting index. -/
lemma runCopies_mem_le (c : Nat → Except String Unit) :
    ∀ (chunks : List (List DbRow)) (i j : Nat),
      j ∈ (runCopies c chunks i).1 → i ≤ j := by
  intro chunks
  induction chunks with
  | nil =>
    intro i j hm
    simp [runCopies] at hm
  | cons a rest ih =>
    intro i j hm
    rw [runCopies] at hm
    cases hc : c i <;> rw [hc] at hm
    · simp at hm
      omega
    · simp at hm
      rcases hm with hm | hm
      · omega
      · have := ih (i + 1) j hm
        omega

/-- The copy loop attempts each chunk at most once: the attempted
indices are distinct. -/
lemma runCopies_nodup (c : Nat → Except String Unit) :
    ∀ (chunks : List (List DbRow)) (i : Nat),
      (runCopies c chunks i).1.Nodup := by
  intro chunks
  induction chunks with
  | nil => intro i; simp [runCopies]
  | cons a rest ih =>
    intro i
    rw [runCopies]
    cases hc : c i
    · simp
    · simp
      constructor
      · intro hmem
        have := runCopies_mem_le c rest (i + 1) i hmem
        omega
      · exact ih (i + 1)

/-- C6: whenever the storage sink fails during a flush,
`stream_insert_result` logs the error and re-raises it to the caller,
and no row of the batch is committed; when nothing fails, every
transformed row of the batch is committed — the flush is all-or-nothing
— and no chunk is ever retried (each chunk index is copied at most
once). -/
theorem stream_insert_result_spec (results : List ProbeResult)
    (upsert : String → Int) (chunk_size : Nat)
    (copyOutcome : Nat → Except String Unit) :
    (∀ e, (stream_insert_result results upsert chunk_size
        copyOutcome).raised = some e →
      (stream_insert_result results upsert chunk_size
        copyOutcome).loggedError = true ∧
      (stream_insert_result results upsert chunk_size
        copyOutcome).committed = []) ∧
    ((stream_insert_result results upsert chunk_size
        copyOutcome).raised = none →
      (stream_insert_result results upsert chunk_size
        copyOutcome).committed = results.map (toDbRow upsert)) ∧
    ((stream_insert_result results upsert chunk_size
        copyOutcome).committed = [] ∨
      (stream_insert_result results upsert chunk_size
        copyOutcome).committed = results.map (toDbRow upsert)) ∧
    (stream_insert_result results upsert chunk_size
        copyOutcome).copiesAttempted.Nodup := by
  unfold stream_insert_result
  cases hrun : (runCopies copyOutcome
      (pySlices (results.map (toDbRow upsert)) chunk_size) 0).2 <;>
    simp [hrun]
  · exact runCopies_nodup _ _ _
  · exact runCopies_nodup _ _ _

/-- Witness for C6: a sink that rejects the first chunk makes the flush
raise with nothing committed. -/
theorem stream_insert_result_spec_witness :
    (stream_insert_result [⟨"https://example.com", 1, 200, none, 5, ""⟩]
        (fun _ => 1) 1000 (fun _ => .error "disk full")).loggedError =
      true ∧
    (stream_insert_result [⟨"https://example.com", 1, 200, none, 5, ""⟩]
        (fun _ => 1) 1000 (fun _ => .error "disk full")).committed =
      [] :=
  (stream_insert_result_spec [⟨"https://example.com", 1, 200, none, 5, ""⟩]
    (fun _ => 1) 1000 (fun _ => .error "disk full")).1 "disk full"
    (by simp [stream_insert_result, pySlices, runCopies])

/-- C9: the quote-doubling escape is applied to `matched_content` only —
for the `detail_log` string field the CSV formatting wraps the value in
double quotes without doubling embedded quotes, so a detail containing
`"` produces the malformed field `"a"b"` instead of `"a""b"` (the code's
own comment, "escape double quotes in strings", promises otherwise for
every string value). -/
theorem csvLine_detail_quote_not_escaped :
    escapeMatchedContent (some "x\"y") = "x\"\"y" ∧
    csvLine ⟨1, 200, 0, "m", 5, "a\"b"⟩ = "1,200,0,\"m\",5,\"a\"b\"" ∧
    csvLine ⟨1, 200, 0, "m", 5, "a\"b"⟩ ≠ "1,200,0,\"m\",5,\"a\"\"b\"" := by
  refine ⟨by decide, ?_, ?_⟩ <;> decide

/-- Unfolding `pySlices` on a nonempty list with a nonzero step. -/
lemma pySlices_cons {α : Type} (a : α) (l : List α) (n : Nat)
    (h : n ≠ 0) :
    pySlices (a :: l) n =
      ((a :: l).take n) :: pySlices ((a :: l).drop n) n := by
  rw [pySlices]
  simp [h]

/-- A nonzero-step slicing of a list concatenates back to the list. -/
lemma pySlices_flatten {α : Type} (n : Nat) (h : n ≠ 0) :
    ∀ l : List α, (pySlices l n).flatten = l := by
  have key : ∀ (k : Nat) (l : List α), l.length ≤ k →
      (pySlices l n).flatten = l := by
    intro k
    induction k with
    | zero =>
      intro l hl
      have hnil : l = [] := List.eq_nil_of_length_eq_zero (Nat.le_zero.mp hl)
      subst hnil
      simp [pySlices]
    | succ k ih =>
      intro l hl
      cases l with
      | nil => simp [pySlices]
      | cons a t =>
        rw [pySlices_cons a t n h, List.flatten_cons,
          ih ((a :: t).drop n) ?hlen, List.take_append_drop]
        case hlen =>
          simp only [List.length_drop, List.length_cons]
          have hl2 : t.length + 1 ≤ k + 1 := by simpa using hl
          omega
  intro l
  exact key l.length l le_rfl

/-- The number of slices is the ceiling of `length / n`. -/
lemma pySlices_length {α : Type} (n : Nat) (h : n ≠ 0) :
    ∀ l : List α, (pySlices l n).length = (l.length + n - 1) / n := by
  have key : ∀ (k : Nat) (l : List α), l.length ≤ k →
      (pySlices l n).length = (l.length + n - 1) / n := by
    intro k
    induction k with
    | zero =>
      intro l hl
      have hnil : l = [] := List.eq_nil_of_length_eq_zero (Nat.le_zero.mp hl)
      subst hnil
      simp [pySlices]
      rw [Nat.div_eq_of_lt (by omega)]
    | succ k ih =>
      intro l hl
      cases l with
      | nil =>
        simp [pySlices]
        rw [Nat.div_eq_of_lt (by omega)]
      | cons a t =>
        rw [pySlices_cons a t n h, List.length_cons,
          ih ((a :: t).drop n) ?hlen]
        case hlen =>
          simp only [List.length_drop, List.length_cons]
          have hl2 : t.length + 1 ≤ k + 1 := by simpa using hl
          omega
        simp only [List.length_drop, List.length_cons]
        by_cases hc : t.length + 1 ≤ n
        · have e1 : t.length + 1 - n + n - 1 = n - 1 := by omega
          have e2 : t.length + 1 + n - 1 = t.length + n := by omega
          rw [e1, e2, Nat.div_eq_of_lt (by omega),
            Nat.add_div_right _ (by omega : 0 < n),
            Nat.div_eq_of_lt (by omega)]
        · have e1 : t.length + 1 - n + n - 1 = t.length := by omega
          have e2 : t.length + 1 + n - 1 = t.length + n := by omega
          rw [e1, e2, Nat.add_div_right _ (by omega : 0 < n)]
  intro l
  exact key l.length l le_rfl

/-- Every slice of a nonzero-step slicing is nonempty and no longer than
the step. -/
lemma pySlices_chunk_sizes {α : Type} (n : Nat) (h : n ≠ 0) :
    ∀ l : List α, ∀ c ∈ pySlices l n, c ≠ [] ∧ c.length ≤ n := by
  have key : ∀ (k : Nat) (l : List α), l.length ≤ k →
      ∀ c ∈ pySlices l n, c ≠ [] ∧ c.length ≤ n := by
    intro k
    induction k with
    | zero =>
      intro l hl
      have hnil : l = [] := List.eq_nil_of_length_eq_zero (Nat.le_zero.mp hl)
      subst hnil
      simp [pySlices]
    | succ k ih =>
      intro l hl
      cases l with
      | nil => simp [pySlices]
      | cons a t =>
        rw [pySlices_cons a t n h]
        intro c hc
        rcases List.mem_cons.mp hc with hceq | hcmem
        · subst hceq
          constructor
          · cases n with
            | zero => exact absurd rfl h
            | succ m => simp
          · simp [List.length_take]
        · refine ih ((a :: t).drop n) ?_ c hcmem
          simp only [List.length_drop, List.length_cons]
          have hl2 : t.length + 1 ≤ k + 1 := by simpa using hl
          omega
  intro l
  exact key l.length l le_rfl

/-- Every slice before the last has length exactly the step. -/
lemma pySlices_dropLast {α : Type} (n : Nat) (h : n ≠ 0) :
    ∀ l : List α, ∀ c ∈ (pySlices l n).dropLast, c.length = n := by
  have key : ∀ (k : Nat) (l : List α), l.length ≤ k →
      ∀ c ∈ (pySlices l n).dropLast, c.length = n := by
    intro k
    induction k with
    | zero =>
      intro l hl
      have hnil : l = [] := List.eq_nil_of_length_eq_zero (Nat.le_zero.mp hl)
      subst hnil
      simp [pySlices]
    | succ k ih =>
      intro l hl
      cases l with
      | nil => simp [pySlices]
      | cons a t =>
        rw [pySlices_cons a t n h]
        by_cases hr : pySlices ((a :: t).drop n) n = []
        · rw [hr]
          simp
        · rw [List.dropLast_cons_of_ne_nil hr]
          intro c hc
          rcases List.mem_cons.mp hc with hceq | hcmem
          · subst hceq
            have hdrop : (a :: t).drop n ≠ [] := by
              intro hd
              apply hr
              rw [hd]
              simp [pySlices]
            have hlen : 0 < ((a :: t).drop n).length :=
              List.length_pos.mpr hdrop
            simp only [List.length_drop, List.length_cons] at hlen
            simp [List.length_take]
            omega
          · refine ih ((a :: t).drop n) ?_ c hcmem
            simp only [List.length_drop, List.length_cons]
            have hl2 : t.length + 1 ≤ k + 1 := by simpa using hl
            omega
  intro l
  exact key l.length l le_rfl

/-- C7 counterexample: 3 validated sites with parallelism 2.  The claim
predicts `ceil(3/2) = 2` chunks of size `max(1, 3 // 2) = 1`, but the
Dispatcher produces 3 chunks: the chunk count is the ceiling of `N`
over the chunk size `max(1, N // P)`, not of `N` over `P`. -/
theorem mainDispatch_count_counterexample :
    websites_per_chunk
        [⟨"https://a.com", 5, none⟩, ⟨"https://b.com", 5, none⟩,
          ⟨"https://c.com", 5, none⟩] 2 = 1 ∧
    (mainDispatch
        [⟨"https://a.com", 5, none⟩, ⟨"https://b.com", 5, none⟩,
          ⟨"https://c.com", 5, none⟩] 2).length = 3 ∧
    ((3 : Nat) + 2 - 1) / 2 = 2 ∧ (3 : Nat) ≠ 2 := by
  refine ⟨by decide, ?_, by decide, by decide⟩
  simp [mainDispatch, chunk_websites, websites_per_chunk, pySlices]

/-- C7 amended: with chunk size `s = max(1, N // P)` (floor division,
as computed by `websites_per_chunk`), the Dispatcher partitions the `N`
validated sites into `ceil(N / s)` chunks — not `ceil(N / P)` — whose
concatenation is exactly the site list, every chunk nonempty of size at
most `s` and every chunk before the last of size exactly `s`; one thread
is started per chunk, which starts one scheduler loop per site of its
chunk. -/
theorem mainDispatch_spec (websites : List Website) (num_cores : Nat)
    (h : 0 < num_cores) :
    (mainDispatch websites num_cores).length =
      (websites.length + websites_per_chunk websites num_cores - 1) /
        websites_per_chunk websites num_cores ∧
    (mainDispatch websites num_cores).flatten = websites ∧
    (∀ c ∈ mainDispatch websites num_cores,
      c ≠ [] ∧ c.length ≤ websites_per_chunk websites num_cores) ∧
    ∀ c ∈ (mainDispatch websites num_cores).dropLast,
      c.length = websites_per_chunk websites num_cores := by
  have hs : websites_per_chunk websites num_cores ≠ 0 := by
    simp only [websites_per_chunk]
    omega
  exact ⟨pySlices_length _ hs _, pySlices_flatten _ hs _,
    pySlices_chunk_sizes _ hs _, pySlices_dropLast _ hs _⟩

/-- Witness for C7 (amended): the 3-site, 2-core dispatch covers every
site exactly once. -/
theorem mainDispatch_spec_witness :
    (mainDispatch
        [⟨"https://a.com", 5, none⟩, ⟨"https://b.com", 5, none⟩,
          ⟨"https://c.com", 5, none⟩] 2).flatten =
      [⟨"https://a.com", 5, none⟩, ⟨"https://b.com", 5, none⟩,
        ⟨"https://c.com", 5, none⟩] :=
  (mainDispatch_spec
    [⟨"https://a.com", 5, none⟩, ⟨"https://b.com", 5, none⟩,
      ⟨"https://c.com", 5, none⟩] 2 (by decide)).2.1

/-- C5: the check-and-drain of a flush is not atomic with respect to
concurrent appends.  Three site threads, threshold 2: thread 0 appends
`r1` (no flush), thread 1 appends `r2` and — the length check passing —
hands the buffer `[r1, r2]` to the writer; thread 2 then appends `r3`;
thread 1 now runs `results.clear()`, discarding `r3`; thread 2's own
length check sees an empty buffer and does nothing.  All threads finish
with `r3` neither in the buffer nor in any flushed batch: a probe
outcome is silently dropped, refuting the claimed invariant. -/
theorem buffer_drain_drops_result :
    (runSchedule [0, 0, 1, 1, 2, 1, 2]
        ([.appendThen ⟨"https://a.com", 0, 200, none, 7, ""⟩ 2,
          .appendThen ⟨"https://b.com", 0, 200, none, 7, ""⟩ 2,
          .appendThen ⟨"https://c.com", 0, 200, none, 7, ""⟩ 2],
          ⟨[], []⟩)) =
      ([.done, .done, .done],
        ⟨[], [[⟨"https://a.com", 0, 200, none, 7, ""⟩,
          ⟨"https://b.com", 0, 200, none, 7, ""⟩]]⟩) ∧
    (∀ b ∈ (runSchedule [0, 0, 1, 1, 2, 1, 2]
        ([.appendThen ⟨"https://a.com", 0, 200, none, 7, ""⟩ 2,
          .appendThen ⟨"https://b.com", 0, 200, none, 7, ""⟩ 2,
          .appendThen ⟨"https://c.com", 0, 200, none, 7, ""⟩ 2],
          ⟨[], []⟩)).2.flushes,
      ⟨"https://c.com", 0, 200, none, 7, ""⟩ ∉ b) ∧
    ⟨"https://c.com", 0, 200, none, 7, ""⟩ ∉
      (runSchedule [0, 0, 1, 1, 2, 1, 2]
        ([.appendThen ⟨"https://a.com", 0, 200, none, 7, ""⟩ 2,
          .appendThen ⟨"https://b.com", 0, 200, none, 7, ""⟩ 2,
          .appendThen ⟨"https://c.com", 0, 200, none, 7, ""⟩ 2],
          ⟨[], []⟩)).2.buffer := by
  refine ⟨by decide, by decide, by decide⟩
